import Mathlib

/-!
Shallow embedding of the Progression & Scheduling Engine of the
One-Thing-Focus repository.

Source files embedded:
- `src/lib/storage.ts`: the `UserProfile` / `TaskItem` / `DailyEntry` data
  model and `processEndOfDay`.
- `src/lib/analytics.ts`: the pure state-transition core of `completeTask`
  (the AppContext callback), with the storage / analytics / widget side
  effects stripped; its reads and writes of `profile` and `todayEntry`
  are modelled as an explicit input/output pair.
- `src/lib/notifications.ts` (the current three-slot version, the one with
  `schedulePickTaskReminder` / `scheduleFocusNudge` / `scheduleWrapUpReminder`
  and `syncNotifications`): each scheduling/cancelling function is embedded
  as the list of `cancel` / `schedule` operations it issues against the
  expo notification service, in issue order.  Message-body selection
  (`pickRandom` over the template pools) affects only the `body` string of
  a scheduled notification, never whether or with which identifier/trigger
  it is scheduled, so bodies are not carried in the operation trace.

Clock handling: the TypeScript code derives "yesterday" (in
`processEndOfDay`) from `new Date()`, and `scheduleFocusNudge` compares the
target time against `Date.now()`.  The embedding passes that clock data
explicitly: the derived `yesterday` date string, and the current
time-of-day in seconds since local midnight (`nowSec`).  Notification
permission (`getNotificationPermissionStatus().granted`) is likewise passed
as an explicit `granted : Bool`.  JavaScript `parseInt` / `Number`
producing `NaN` on non-numeric input is modelled with `Option Nat`
(`none` = NaN), together with JavaScript's rule that every comparison
against NaN is false.

`Record<string, DailyEntry>` is modelled as an association list
`List (String × DailyEntry)`; `entries[d]` is first-match lookup and
`Object.keys(entries).some(...)` is `List.any` over the keys.
-/

/-- `ReminderConfig` from `src/lib/storage.ts`. -/
structure ReminderConfig where
  enabled : Bool
  time : String
deriving DecidableEq

/-- `FocusNudgeConfig` (the `reminderFocusNudge` shape: enabled toggle only),
per the current profile schema in `src/lib/validation.ts`. -/
structure FocusNudgeConfig where
  enabled : Bool
deriving DecidableEq

/-- `UserProfile` from `src/lib/storage.ts`, current schema (the one the
repository's own tests and `src/lib/validation.ts` use): reminder slots
`reminderPickTask`, `reminderFocusNudge`, `reminderWrapUp`.
`currentLevel : 1 | 2 | 3` is embedded as `Nat`; theorems that need the
type-level range carry it as a hypothesis. -/
structure UserProfile where
  name : String
  createdAt : String
  currentLevel : Nat
  currentLevelStreak : Nat
  longestStreak : Nat
  totalTasksCompleted : Nat
  reminderEnabled : Bool
  reminderTime : String
  onboardingComplete : Bool
  reminderPickTask : ReminderConfig
  reminderFocusNudge : FocusNudgeConfig
  reminderWrapUp : ReminderConfig
deriving DecidableEq

/-- `proof` payload of a `TaskItem` (`src/lib/storage.ts`); the
`'photo' | 'screenshot' | 'document'` union is kept as a string. -/
structure TaskProof where
  type : String
  uri : String
deriving DecidableEq

/-- `TaskItem` from `src/lib/storage.ts` plus the optional `scheduledTime`
field of the current schema (`src/lib/validation.ts`). -/
structure TaskItem where
  id : String
  text : String
  createdAt : String
  completedAt : Option String
  scheduledTime : Option String
  proof : Option TaskProof
  isCompleted : Bool
deriving DecidableEq

/-- `reflection` payload of a `DailyEntry` (`src/lib/storage.ts`). -/
structure Reflection where
  mood : String
  note : Option String
deriving DecidableEq

/-- `DailyEntry` from `src/lib/storage.ts`. -/
structure DailyEntry where
  date : String
  tasks : List TaskItem
  reflection : Option Reflection
  completed : Bool
  levelAtTime : Nat
  completionMessageIndex : Option Nat
  completionAnimationSeen : Option Bool
deriving DecidableEq

/-- The `Record<string, DailyEntry>` entries map, as an association list. -/
abbrev Entries := List (String × DailyEntry)

/-- `entries[dateStr]` — JavaScript property lookup, `undefined` = `none`. -/
def lookupEntry (entries : Entries) (d : String) : Option DailyEntry :=
  (entries.find? (fun p => p.1 = d)).map Prod.snd

/-- `processEndOfDay` from `src/lib/storage.ts` (lines 283-311).  The
`yesterdayStr` the source derives from `new Date()` is passed in explicitly;
everything else is verbatim: if yesterday has no entry, a positive streak
plus any entry dated strictly before yesterday means a missed day
(streak to 0, level down by 1 when above 1); if yesterday's entry exists
with at least one task and is not completed, the same regression applies;
otherwise the profile is returned unchanged. -/
def processEndOfDay (yesterdayStr : String) (profile : UserProfile)
    (entries : Entries) : UserProfile :=
  match lookupEntry entries yesterdayStr with
  | none =>
    if profile.currentLevelStreak > 0 then
      if entries.any (fun p => decide (p.1 < yesterdayStr)) then
        if profile.currentLevel > 1 then
          { profile with currentLevel := profile.currentLevel - 1, currentLevelStreak := 0 }
        else
          { profile with currentLevelStreak := 0 }
      else
        profile
    else
      profile
  | some yesterdayEntry =>
    if yesterdayEntry.tasks.length > 0 && !yesterdayEntry.completed then
      if profile.currentLevel > 1 then
        { profile with currentLevel := profile.currentLevel - 1, currentLevelStreak := 0 }
      else
        { profile with currentLevelStreak := 0 }
    else
      profile

/-- Result of the pure core of the `completeTask` callback in
`src/lib/analytics.ts`: the new profile, the updated today entry, and
whether the level-up branch fired (`setJustLeveledUp(true)`). -/
structure CompleteTaskResult where
  profile : UserProfile
  entry : DailyEntry
  justLeveledUp : Bool
deriving DecidableEq

/-- Pure state transition of `completeTask` from `src/lib/analytics.ts`
(lines 572-627): mark the task with `taskId` completed (stamping
`completedAt` with the current ISO time and overwriting `proof` with the
argument), bump `totalTasksCompleted`, and when every updated task is
completed and the list is non-empty, increment the streak, track the
longest streak, and when the new streak reaches 7 below level 3 move the
level up by `Math.min(level + 1, 3)` and reset the streak.  The entry is
rewritten with the updated tasks and `completed := allDone`.  Analytics
tracking, persistence and notification sync are side effects outside this
transition. -/
def completeTask (profile : UserProfile) (todayEntry : DailyEntry)
    (taskId : String) (nowIso : String) (proof : Option TaskProof) :
    CompleteTaskResult :=
  let updatedTasks := todayEntry.tasks.map (fun t =>
    if t.id = taskId then
      { t with isCompleted := true, completedAt := some nowIso, proof := proof }
    else t)
  let allDone := updatedTasks.all (fun t => t.isCompleted)
  let base := { profile with totalTasksCompleted := profile.totalTasksCompleted + 1 }
  let result :=
    if allDone && decide (updatedTasks.length > 0) then
      let streak := profile.currentLevelStreak + 1
      let withStreak := { base with
        currentLevelStreak := streak,
        longestStreak := if streak > base.longestStreak then streak else base.longestStreak }
      if decide (withStreak.currentLevelStreak ≥ 7) && decide (withStreak.currentLevel < 3) then
        let newLevel := min (withStreak.currentLevel + 1) 3
        ({ withStreak with currentLevel := newLevel, currentLevelStreak := 0 }, true)
      else
        (withStreak, false)
    else
      (base, false)
  { profile := result.1,
    entry := { todayEntry with tasks := updatedTasks, completed := allDone },
    justLeveledUp := result.2 }

/-! ## Notification scheduler (`src/lib/notifications.ts`) -/

/-- `PICK_TASK_ID` constant. -/
def PICK_TASK_ID : String := "pick-task-reminder"

/-- `WRAP_UP_ID` constant. -/
def WRAP_UP_ID : String := "wrap-up-reminder"

/-- `` `${FOCUS_NUDGE_PREFIX}${taskId}` `` — the per-task focus-nudge
identifier ("focus-nudge-" followed by the task id). -/
def focusNudgeId (taskId : String) : String := "focus-nudge-" ++ taskId

/-- Trigger payload of `Notifications.scheduleNotificationAsync`:
either a DAILY trigger with hour/minute or a one-shot TIME_INTERVAL
trigger with a seconds count.  `none` components are JavaScript `NaN`. -/
inductive Trigger where
  | daily (hour minute : Option Nat)
  | onceIn (seconds : Option Nat)
deriving DecidableEq

/-- One call against the notification service: `cancel(id)`
(`cancelScheduledNotificationAsync`) or `schedule(id, trigger)`
(`scheduleNotificationAsync`). -/
inductive NotifOp where
  | cancel (id : String)
  | schedule (id : String) (trigger : Trigger)
deriving DecidableEq

/-- Numeric value of a digit list, most significant first. -/
def digitsToNat (ds : List Char) : Nat :=
  ds.foldl (fun acc c => acc * 10 + (c.toNat - 48)) 0

/-- JavaScript `parseInt(s, 10)`: parse the longest leading digit run,
`NaN` (= `none`) when there is none. -/
def jsParseInt (s : String) : Option Nat :=
  match s.data.takeWhile (fun c => c.isDigit) with
  | [] => none
  | ds => some (digitsToNat ds)

/-- `split(':')` on the character list: JavaScript `String.prototype.split`
with a single-character separator (an empty input yields `[""]`, a
trailing separator a trailing empty field). -/
def splitCharsOnColon : List Char → List (List Char)
  | [] => [[]]
  | c :: rest =>
    match splitCharsOnColon rest with
    | [] => [[c]]
    | g :: gs =>
      if c = ':' then [] :: g :: gs
      else (c :: g) :: gs

/-- `time.split(':')`. -/
def splitOnColon (s : String) : List String :=
  (splitCharsOnColon s.data).map (fun cs => String.mk cs)

/-- `time.split(':')` followed by `parseInt` of the first two parts, as in
each scheduling function; a missing part is `undefined` and parses to NaN. -/
def timeParts (time : String) : Option Nat × Option Nat :=
  let parts := splitOnColon time
  (jsParseInt (parts.headD ""), jsParseInt ((parts.drop 1).headD ""))

/-- The `hour >= 21` guard under NaN semantics: a comparison against NaN is
false in JavaScript, so a failed parse never triggers the guard. -/
def hourGE21 (hour : Option Nat) : Bool :=
  match hour with
  | some h => decide (21 ≤ h)
  | none => false

/-- JavaScript truthiness of an optional string (`undefined` and `""` are
falsy), used by `task.scheduledTime` checks. -/
def truthyOptStr (s : Option String) : Bool :=
  match s with
  | some str => !decide (str = "")
  | none => false

/-- `Number(x)` applied to one part of a `split(':')` result, as in
`isWithinOneHour`: a missing part (`undefined`) is NaN, the empty string is
0, a digit string is its value, anything else NaN. -/
def jsNumberPart (s : Option String) : Option Int :=
  match s with
  | none => none
  | some str =>
    if str = "" then some 0
    else if str.data.all (fun c => c.isDigit) then
      some (Int.ofNat (digitsToNat str.data))
    else none

/-- `isWithinOneHour` from `src/lib/notifications.ts` (lines 246-252):
both times to minutes, absolute difference at most 60.  Under NaN semantics
any failed parse makes the comparison false. -/
def isWithinOneHour (time1 time2 : String) : Bool :=
  let p1 := splitOnColon time1
  let p2 := splitOnColon time2
  match jsNumberPart p1[0]?, jsNumberPart p1[1]?, jsNumberPart p2[0]?, jsNumberPart p2[1]? with
  | some h1, some m1, some h2, some m2 =>
    decide (((h1 * 60 + m1) - (h2 * 60 + m2)).natAbs ≤ 60)
  | _, _, _, _ => false

/-- Operation trace of `schedulePickTaskReminder(time, name)` (lines
96-125): always cancel first, then schedule a DAILY trigger unless the
parsed hour is at or after 21.  The `name` argument selects the message
pool only, so it does not appear in the trace. -/
def schedulePickTaskReminderOps (time : String) : List NotifOp :=
  NotifOp.cancel PICK_TASK_ID ::
    (let hm := timeParts time
     if hourGE21 hm.1 then []
     else [NotifOp.schedule PICK_TASK_ID (Trigger.daily hm.1 hm.2)])

/-- Operation trace of `scheduleWrapUpReminder(time, taskText, name)`
(lines 178-207): cancel first, then schedule a DAILY trigger unless the
parsed hour is at or after 21.  `taskText`/`name` only shape the body. -/
def scheduleWrapUpReminderOps (time : String) : List NotifOp :=
  NotifOp.cancel WRAP_UP_ID ::
    (let hm := timeParts time
     if hourGE21 hm.1 then []
     else [NotifOp.schedule WRAP_UP_ID (Trigger.daily hm.1 hm.2)])

/-- Operation trace of `scheduleFocusNudge(taskId, taskText, scheduledTime,
name)` (lines 127-176): no-op without permission; otherwise cancel the
task's nudge id, then — unless the hour is ≥ 21 or the target time-of-day
has already passed `now` — schedule a one-shot trigger for the remaining
seconds.  A NaN hour/minute makes the target an Invalid Date whose
comparison with `now` is false, so the code falls through and schedules
with NaN seconds. -/
def scheduleFocusNudgeOps (granted : Bool) (nowSec : Nat) (taskId : String)
    (scheduledTime : String) : List NotifOp :=
  if !granted then []
  else
    NotifOp.cancel (focusNudgeId taskId) ::
      (let hm := timeParts scheduledTime
       if hourGE21 hm.1 then []
       else
         match hm.1, hm.2 with
         | some h, some m =>
           let targetSec := h * 3600 + m * 60
           if targetSec ≤ nowSec then []
           else [NotifOp.schedule (focusNudgeId taskId) (Trigger.onceIn (some (targetSec - nowSec)))]
         | _, _ => [NotifOp.schedule (focusNudgeId taskId) (Trigger.onceIn none)])

/-- Operation trace of `cancelAllReminders(tasks)` (lines 237-244). -/
def cancelAllRemindersOps (tasks : List TaskItem) : List NotifOp :=
  NotifOp.cancel PICK_TASK_ID :: NotifOp.cancel WRAP_UP_ID ::
    tasks.map (fun t => NotifOp.cancel (focusNudgeId t.id))

/-- The `shouldSkipWrapUp` computation inside `syncNotifications` (lines
301-303): find the first incomplete task with a truthy `scheduledTime` and
test it against the wrap-up time with `isWithinOneHour`. -/
def shouldSkipWrapUp (wrapUpTime : String) (incompleteTasks : List TaskItem) : Bool :=
  match incompleteTasks.find? (fun t => truthyOptStr t.scheduledTime) with
  | some taskWithTime =>
    truthyOptStr taskWithTime.scheduledTime &&
      isWithinOneHour (taskWithTime.scheduledTime.getD "") wrapUpTime
  | none => false

/-- Focus-nudge section of `syncNotifications` (lines 288-298): with the
nudge toggle on, walk today's tasks cancelling nudges of completed tasks
and (re)scheduling those of incomplete tasks that carry a `scheduledTime`;
with the toggle off, cancel every task's nudge. -/
def focusSectionOps (granted : Bool) (nowSec : Nat) (focusEnabled : Bool)
    (tasks : List TaskItem) : List NotifOp :=
  if focusEnabled then
    tasks.flatMap (fun t =>
      if t.isCompleted then [NotifOp.cancel (focusNudgeId t.id)]
      else if truthyOptStr t.scheduledTime then
        scheduleFocusNudgeOps granted nowSec t.id (t.scheduledTime.getD "")
      else [])
  else
    tasks.map (fun t => NotifOp.cancel (focusNudgeId t.id))

/-- Wrap-up section of `syncNotifications` (lines 300-316): schedule only
when the toggle is on, some task is incomplete, and the anti-spam window
does not suppress it; otherwise cancel the wrap-up reminder. -/
def wrapSectionOps (wrapUpEnabled : Bool) (wrapUpTime : String)
    (tasks : List TaskItem) : List NotifOp :=
  let incompleteTasks := tasks.filter (fun t => !t.isCompleted)
  if wrapUpEnabled && decide (incompleteTasks.length > 0) then
    if !shouldSkipWrapUp wrapUpTime incompleteTasks then
      scheduleWrapUpReminderOps wrapUpTime
    else
      [NotifOp.cancel WRAP_UP_ID]
  else
    [NotifOp.cancel WRAP_UP_ID]

/-- Operation trace of `syncNotifications(profile, todayEntry)` (lines
254-317).  `granted` is the permission probe result (a denied permission
makes the whole call a no-op) and `nowSec` the current time-of-day in
seconds, both read from the environment by the source. -/
def syncNotifications (profile : UserProfile) (todayEntry : Option DailyEntry)
    (granted : Bool) (nowSec : Nat) : List NotifOp :=
  if !granted then []
  else
    let noTasksYet :=
      (if profile.reminderPickTask.enabled then
        schedulePickTaskReminderOps profile.reminderPickTask.time
      else
        [NotifOp.cancel PICK_TASK_ID]) ++ [NotifOp.cancel WRAP_UP_ID]
    match todayEntry with
    | none => noTasksYet
    | some entry =>
      if entry.tasks.length = 0 then noTasksYet
      else if entry.completed then cancelAllRemindersOps entry.tasks
      else
        NotifOp.cancel PICK_TASK_ID ::
          (focusSectionOps granted nowSec profile.reminderFocusNudge.enabled entry.tasks ++
           wrapSectionOps profile.reminderWrapUp.enabled profile.reminderWrapUp.time entry.tasks)

/-! ## Semantics of the operation traces

The expo notification service is modelled as a multiset of live scheduled
notifications, one count per identifier: `cancel id` removes every live
notification under `id` (cancelling a non-existent id is harmless), and
`schedule id trigger` adds one.  A state is a count function
`String → Nat`; this is deliberately weaker than the real service (which
replaces on duplicate identifiers), so the at-most-one-per-slot results
below rely only on the cancel-before-create discipline of the code. -/

/-- Effect of a single operation on the live count of identifier `id`. -/
def stepCount (id : String) (n : Nat) (op : NotifOp) : Nat :=
  match op with
  | NotifOp.cancel i => if i = id then 0 else n
  | NotifOp.schedule i _ => if i = id then n + 1 else n

/-- Live count of `id` after running `ops` from a count of `n`. -/
def countAfter (ops : List NotifOp) (id : String) (n : Nat) : Nat :=
  ops.foldl (stepCount id) n

/-- Run a trace against a whole service state. -/
def applyOps (ops : List NotifOp) (s : String → Nat) : String → Nat :=
  fun id => countAfter ops id (s id)

/-- Whether the trace contains a `schedule` for `id`. -/
def schedulesId (ops : List NotifOp) (id : String) : Bool :=
  ops.any (fun op =>
    match op with
    | NotifOp.schedule i _ => i = id
    | NotifOp.cancel _ => false)

/-- Whether the trace contains a `cancel` for `id`. -/
def cancelsId (ops : List NotifOp) (id : String) : Bool :=
  ops.any (fun op =>
    match op with
    | NotifOp.cancel i => i = id
    | NotifOp.schedule _ _ => false)

/-- Whether the trace contains any `schedule` at all. -/
def schedulesAny (ops : List NotifOp) : Bool :=
  ops.any (fun op =>
    match op with
    | NotifOp.schedule _ _ => true
    | NotifOp.cancel _ => false)

/-- The trace leaves at most one live notification under `id` no matter
how many were live before. -/
def slotReset (ops : List NotifOp) (id : String) : Prop :=
  ∀ n : Nat, countAfter ops id n ≤ 1

/-- The trace leaves the live count of `id` untouched. -/
def slotUntouched (ops : List NotifOp) (id : String) : Prop :=
  ∀ n : Nat, countAfter ops id n = n

/-- Cancel-before-create discipline, per identifier: every identifier the
trace schedules ends with at most one live notification, and every
identifier is either reset to at most one or left untouched. -/
def opsOK (ops : List NotifOp) : Prop :=
  ∀ id : String,
    (schedulesId ops id = true → slotReset ops id) ∧
    (slotReset ops id ∨ slotUntouched ops id)

/-- The `baseProfile` fixture of `src/__tests__/lib/storage.test.ts`. -/
def testProfile : UserProfile :=
  { name := "Test"
    createdAt := "2024-01-01T00:00:00.000Z"
    currentLevel := 2
    currentLevelStreak := 5
    longestStreak := 10
    totalTasksCompleted := 50
    reminderEnabled := false
    reminderTime := "09:00"
    onboardingComplete := true
    reminderPickTask := { enabled := false, time := "08:00" }
    reminderFocusNudge := { enabled := false }
    reminderWrapUp := { enabled := false, time := "19:00" } }

/-- An incomplete task, as in the test fixture. -/
def incompleteTask : TaskItem :=
  { id := "1", text := "Task", createdAt := "", completedAt := none,
    scheduledTime := none, proof := none, isCompleted := false }

/-- Yesterday's entry with one incomplete task (`completed = false`). -/
def missedEntry : DailyEntry :=
  { date := "2024-01-02", tasks := [incompleteTask], reflection := none,
    completed := false, levelAtTime := 2, completionMessageIndex := none,
    completionAnimationSeen := none }

/-- Entries map holding only the missed yesterday entry under
`"2024-01-02"`. -/
def missedEntries : Entries := [("2024-01-02", missedEntry)]

/-! ## Claim theorems -/

/-- A today entry whose task list is empty (`completed = false`). -/
def emptyTodayEntry : DailyEntry :=
  { date := "2024-01-05", tasks := [], reflection := none,
    completed := false, levelAtTime := 1, completionMessageIndex := none,
    completionAnimationSeen := none }

/-- Profile with the wrap-up reminder enabled at 19:00 (focus nudges off,
pick-task off). -/
def wrapUpProfile : UserProfile :=
  { testProfile with reminderWrapUp := { enabled := true, time := "19:00" } }

/-- Incomplete task whose focus nudge is scheduled for 16:00 (three hours
before the 19:00 wrap-up). -/
def taskAt1600 : TaskItem :=
  { id := "a", text := "Deep work", createdAt := "", completedAt := none,
    scheduledTime := some "16:00", proof := none, isCompleted := false }

/-- Incomplete task whose focus nudge is scheduled for 18:30 (30 minutes
before the 19:00 wrap-up, inside the anti-spam window). -/
def taskAt1830 : TaskItem :=
  { id := "b", text := "Review notes", createdAt := "", completedAt := none,
    scheduledTime := some "18:30", proof := none, isCompleted := false }

/-- Today entry with two incomplete tasks: first at 16:00, second at
18:30. -/
def twoTaskEntry : DailyEntry :=
  { date := "2024-01-05", tasks := [taskAt1600, taskAt1830],
    reflection := none, completed := false, levelAtTime := 2,
    completionMessageIndex := none, completionAnimationSeen := none }

/-- Today entry with the single incomplete 16:00 task. -/
def earlyTaskEntry : DailyEntry :=
  { date := "2024-01-05", tasks := [taskAt1600], reflection := none,
    completed := false, levelAtTime := 1, completionMessageIndex := none,
    completionAnimationSeen := none }

/-- The "no tasks yet" test of `syncNotifications`:
`!todayEntry || todayEntry.tasks.length === 0`. -/
def noTasksYetState (o : Option DailyEntry) : Bool :=
  match o with
  | none => true
  | some e => decide (e.tasks.length = 0)

/-- Profile with the pick-task reminder enabled at 08:00. -/
def pickEnabledProfile : UserProfile :=
  { testProfile with reminderPickTask := { enabled := true, time := "08:00" } }

theorem countAfter_append (a b : List NotifOp) (id : String) (n : Nat) :
    countAfter (a ++ b) id n = countAfter b id (countAfter a id n) :=
  List.foldl_append ..

theorem schedulesId_append (a b : List NotifOp) (id : String) :
    schedulesId (a ++ b) id = (schedulesId a id || schedulesId b id) :=
  List.any_append ..

theorem opsOK_nil : opsOK [] := by
  intro id
  constructor
  · intro h
    simp [schedulesId] at h
  · exact Or.inr (fun n => rfl)

theorem opsOK_append {a b : List NotifOp} (ha : opsOK a) (hb : opsOK b) :
    opsOK (a ++ b) := by
  intro id
  obtain ⟨haS, haRU⟩ := ha id
  obtain ⟨hbS, hbRU⟩ := hb id
  have reset_of_b : slotReset b id → slotReset (a ++ b) id := by
    intro hr n
    rw [countAfter_append]
    exact hr _
  have reset_of_a : slotReset a id → slotReset (a ++ b) id := by
    intro hr n
    rw [countAfter_append]
    rcases hbRU with hbr | hbu
    · exact hbr _
    · rw [hbu]
      exact hr n
  constructor
  · intro hs
    rw [schedulesId_append] at hs
    rcases Bool.or_eq_true_iff.mp hs with hsa | hsb
    · exact reset_of_a (haS hsa)
    · exact reset_of_b (hbS hsb)
  · rcases hbRU with hbr | hbu
    · exact Or.inl (reset_of_b hbr)
    · rcases haRU with har | hau
      · refine Or.inl (fun n => ?_)
        rw [countAfter_append, hbu]
        exact har n
      · refine Or.inr (fun n => ?_)
        rw [countAfter_append, hbu, hau]

theorem opsOK_cancel (i : String) : opsOK [NotifOp.cancel i] := by
  intro id
  by_cases h : i = id
  · subst h
    constructor
    · intro hs
      simp [schedulesId] at hs
    · refine Or.inl (fun n => ?_)
      simp [countAfter, stepCount]
  · constructor
    · intro hs
      simp [schedulesId] at hs
    · refine Or.inr (fun n => ?_)
      simp [countAfter, stepCount, h]

theorem opsOK_cancel_schedule (i : String) (t : Trigger) :
    opsOK [NotifOp.cancel i, NotifOp.schedule i t] := by
  intro id
  by_cases h : i = id
  · subst h
    constructor
    · intro _
      intro n
      simp [countAfter, stepCount]
    · refine Or.inl (fun n => ?_)
      simp [countAfter, stepCount]
  · constructor
    · intro hs
      simp [schedulesId, h] at hs
    · refine Or.inr (fun n => ?_)
      simp [countAfter, stepCount, h]

theorem opsOK_cancelList {α : Type} (l : List α) (f : α → String) :
    opsOK (l.map (fun x => NotifOp.cancel (f x))) := by
  induction l with
  | nil => exact opsOK_nil
  | cons x xs ih =>
    have : (x :: xs).map (fun x => NotifOp.cancel (f x)) =
        [NotifOp.cancel (f x)] ++ xs.map (fun x => NotifOp.cancel (f x)) := rfl
    rw [this]
    exact opsOK_append (opsOK_cancel _) ih

theorem opsOK_flatMap {α : Type} (l : List α) (f : α → List NotifOp)
    (hf : ∀ x ∈ l, opsOK (f x)) : opsOK (l.flatMap f) := by
  induction l with
  | nil => exact opsOK_nil
  | cons x xs ih =>
    rw [List.flatMap_cons]
    exact opsOK_append (hf x (List.mem_cons_self ..))
      (ih (fun y hy => hf y (List.mem_cons_of_mem _ hy)))

theorem opsOK_schedulePickTaskReminderOps (time : String) :
    opsOK (schedulePickTaskReminderOps time) := by
  unfold schedulePickTaskReminderOps
  by_cases h : hourGE21 (timeParts time).1 = true
  · simp only [h, if_true]
    exact opsOK_cancel _
  · simp only [Bool.not_eq_true] at h
    simp only [h, Bool.false_eq_true, if_false]
    exact opsOK_cancel_schedule _ _

theorem opsOK_scheduleWrapUpReminderOps (time : String) :
    opsOK (scheduleWrapUpReminderOps time) := by
  unfold scheduleWrapUpReminderOps
  by_cases h : hourGE21 (timeParts time).1 = true
  · simp only [h, if_true]
    exact opsOK_cancel _
  · simp only [Bool.not_eq_true] at h
    simp only [h, Bool.false_eq_true, if_false]
    exact opsOK_cancel_schedule _ _

theorem opsOK_scheduleFocusNudgeOps (granted : Bool) (nowSec : Nat)
    (taskId scheduledTime : String) :
    opsOK (scheduleFocusNudgeOps granted nowSec taskId scheduledTime) := by
  unfold scheduleFocusNudgeOps
  by_cases hg : granted
  · simp only [hg, Bool.not_true, Bool.false_eq_true, if_false]
    by_cases h : hourGE21 (timeParts scheduledTime).1 = true
    · simp only [h, if_true]
      exact opsOK_cancel _
    · simp only [Bool.not_eq_true] at h
      simp only [h, Bool.false_eq_true, if_false]
      rcases h1 : (timeParts scheduledTime).1 with _ | hr
      · simp only [h1]
        exact opsOK_cancel_schedule _ _
      · rcases h2 : (timeParts scheduledTime).2 with _ | mn
        · simp only [h1, h2]
          exact opsOK_cancel_schedule _ _
        · simp only [h1, h2]
          by_cases h3 : hr * 3600 + mn * 60 ≤ nowSec
          · simp only [h3, if_true]
            exact opsOK_cancel _
          · simp only [h3, if_false]
            exact opsOK_cancel_schedule _ _
  · simp only [Bool.not_eq_true] at hg
    simp only [hg, Bool.not_false, if_true]
    exact opsOK_nil

theorem opsOK_cancelAllRemindersOps (tasks : List TaskItem) :
    opsOK (cancelAllRemindersOps tasks) := by
  have : cancelAllRemindersOps tasks =
      [NotifOp.cancel PICK_TASK_ID] ++ ([NotifOp.cancel WRAP_UP_ID] ++
        tasks.map (fun t => NotifOp.cancel (focusNudgeId t.id))) := rfl
  rw [this]
  exact opsOK_append (opsOK_cancel _)
    (opsOK_append (opsOK_cancel _) (opsOK_cancelList _ _))

theorem opsOK_focusSectionOps (granted : Bool) (nowSec : Nat)
    (focusEnabled : Bool) (tasks : List TaskItem) :
    opsOK (focusSectionOps granted nowSec focusEnabled tasks) := by
  unfold focusSectionOps
  by_cases hf : focusEnabled
  · simp only [hf, if_true]
    refine opsOK_flatMap _ _ (fun t _ => ?_)
    by_cases hc : t.isCompleted
    · simp only [hc, if_true]
      exact opsOK_cancel _
    · simp only [hc, Bool.false_eq_true, if_false]
      by_cases hs : truthyOptStr t.scheduledTime = true
      · simp only [hs, if_true]
        exact opsOK_scheduleFocusNudgeOps _ _ _ _
      · simp only [Bool.not_eq_true] at hs
        simp only [hs, Bool.false_eq_true, if_false]
        exact opsOK_nil
  · simp only [Bool.not_eq_true] at hf
    simp only [hf, Bool.false_eq_true, if_false]
    exact opsOK_cancelList _ _

theorem opsOK_wrapSectionOps (wrapUpEnabled : Bool) (wrapUpTime : String)
    (tasks : List TaskItem) :
    opsOK (wrapSectionOps wrapUpEnabled wrapUpTime tasks) := by
  unfold wrapSectionOps
  by_cases h1 : (wrapUpEnabled &&
      decide ((tasks.filter (fun t => !t.isCompleted)).length > 0)) = true
  · simp only [h1, if_true]
    by_cases h2 : shouldSkipWrapUp wrapUpTime (tasks.filter (fun t => !t.isCompleted)) = true
    · simp only [h2, Bool.not_true, Bool.false_eq_true, if_false]
      exact opsOK_cancel _
    · simp only [Bool.not_eq_true] at h2
      simp only [h2, Bool.not_false, if_true]
      exact opsOK_scheduleWrapUpReminderOps _
  · simp only [Bool.not_eq_true] at h1
    simp only [h1, Bool.false_eq_true, if_false]
    exact opsOK_cancel _

theorem opsOK_syncNotifications (profile : UserProfile)
    (todayEntry : Option DailyEntry) (granted : Bool) (nowSec : Nat) :
    opsOK (syncNotifications profile todayEntry granted nowSec) := by
  unfold syncNotifications
  by_cases hg : granted
  · simp only [hg, Bool.not_true, Bool.false_eq_true, if_false]
    have hNoTasks : opsOK
        ((if profile.reminderPickTask.enabled then
            schedulePickTaskReminderOps profile.reminderPickTask.time
          else [NotifOp.cancel PICK_TASK_ID]) ++ [NotifOp.cancel WRAP_UP_ID]) := by
      refine opsOK_append ?_ (opsOK_cancel _)
      by_cases hp : profile.reminderPickTask.enabled
      · simp only [hp, if_true]
        exact opsOK_schedulePickTaskReminderOps _
      · simp only [Bool.not_eq_true] at hp
        simp only [hp, Bool.false_eq_true, if_false]
        exact opsOK_cancel _
    rcases todayEntry with _ | entry
    · exact hNoTasks
    · by_cases he : entry.tasks.length = 0
      · simp only [he, if_true]
        exact hNoTasks
      · simp only [he, if_false]
        by_cases hc : entry.completed
        · simp only [hc, if_true]
          exact opsOK_cancelAllRemindersOps _
        · simp only [hc, Bool.false_eq_true, if_false]
          rw [← List.singleton_append]
          exact opsOK_append (opsOK_cancel _)
            (opsOK_append (opsOK_focusSectionOps _ _ _ _) (opsOK_wrapSectionOps _ _ _))
  · simp only [Bool.not_eq_true] at hg
    simp only [hg, Bool.not_false, if_true]
    exact opsOK_nil

/-! ## Iteration lemmas for the service-state semantics -/

theorem applyOps_iterate (ops : List NotifOp) (s : String → Nat) (N : Nat)
    (id : String) :
    ((applyOps ops)^[N] s) id = (fun n => countAfter ops id n)^[N] (s id) := by
  induction N generalizing s with
  | zero => rfl
  | succ k ih =>
    rw [Function.iterate_succ_apply, Function.iterate_succ_apply]
    exact ih (applyOps ops s)

theorem iterate_le_one_of_le_one {g : Nat → Nat} (hg : ∀ n, g n ≤ 1)
    (n : Nat) : ∀ k, 1 ≤ k → g^[k] n ≤ 1 := by
  intro k hk
  rcases Nat.exists_eq_add_of_le hk with ⟨j, hj⟩
  subst hj
  rw [Nat.add_comm, Function.iterate_succ_apply']
  exact hg _

theorem iterate_eq_self_of_id {g : Nat → Nat} (hg : ∀ n, g n = n)
    (n : Nat) : ∀ k, g^[k] n = n := by
  intro k
  induction k with
  | zero => rfl
  | succ j ih =>
    rw [Function.iterate_succ_apply', ih, hg]

theorem iterate_const_one {g : Nat → Nat} (hg : ∀ n, g n = 1)
    (n : Nat) : ∀ k, 1 ≤ k → g^[k] n = 1 := by
  intro k hk
  rcases Nat.exists_eq_add_of_le hk with ⟨j, hj⟩
  subst hj
  rw [Nat.add_comm, Function.iterate_succ_apply']
  exact hg _

/-! ## Shared concrete fixtures (mirroring the repository's own test
fixture in `src/__tests__/lib/storage.test.ts`) -/

/-- C1: for every profile and entry map where yesterday's entry exists,
has at least one task, and has `completed = false`, `processEndOfDay`
returns a profile with `currentLevelStreak = 0` and with `currentLevel`
decremented by one when the input level exceeds 1 and unchanged (hence
staying 1 at level 1) otherwise — the yesterday date string being the one
the caller's clock derived. -/
theorem processEndOfDay_missed_yesterday
    (yesterdayStr : String) (profile : UserProfile) (entries : Entries)
    (e : DailyEntry) (hE : lookupEntry entries yesterdayStr = some e)
    (hT : e.tasks.length > 0) (hC : e.completed = false) :
    (processEndOfDay yesterdayStr profile entries).currentLevelStreak = 0 ∧
    (processEndOfDay yesterdayStr profile entries).currentLevel =
      (if profile.currentLevel > 1 then profile.currentLevel - 1
       else profile.currentLevel) := by
  unfold processEndOfDay
  simp only [hE]
  have hcond : (decide (e.tasks.length > 0) && !e.completed) = true := by
    simp [hT, hC]
  simp only [hcond, if_true]
  by_cases hL : profile.currentLevel > 1
  · simp [hL]
  · simp [hL]

/-- Witness for C1 at the repository's own test fixture: level 2, streak 5,
yesterday incomplete with one task. -/
theorem processEndOfDay_missed_yesterday_witness :
    lookupEntry missedEntries "2024-01-02" = some missedEntry ∧
    missedEntry.tasks.length > 0 ∧
    missedEntry.completed = false ∧
    ((processEndOfDay "2024-01-02" testProfile missedEntries).currentLevelStreak = 0 ∧
     (processEndOfDay "2024-01-02" testProfile missedEntries).currentLevel =
       (if testProfile.currentLevel > 1 then testProfile.currentLevel - 1
        else testProfile.currentLevel)) :=
  ⟨by decide, by decide, by decide,
    processEndOfDay_missed_yesterday "2024-01-02" testProfile missedEntries
      missedEntry (by decide) (by decide) (by decide)⟩

/-- C5: for every profile and entry map with no entry for yesterday — if
the streak is positive and some entry is dated strictly before yesterday,
`processEndOfDay` resets the streak to 0 and decrements the level when it
exceeds 1; otherwise (zero streak, or no strictly-earlier entry) the
profile is returned unchanged. -/
theorem processEndOfDay_no_yesterday_entry
    (y : String) (p : UserProfile) (es : Entries)
    (hE : lookupEntry es y = none) :
    ((p.currentLevelStreak > 0 ∧ es.any (fun q => decide (q.1 < y)) = true) →
      (processEndOfDay y p es).currentLevelStreak = 0 ∧
      (processEndOfDay y p es).currentLevel =
        (if p.currentLevel > 1 then p.currentLevel - 1
         else p.currentLevel)) ∧
    ((p.currentLevelStreak = 0 ∨ es.any (fun q => decide (q.1 < y)) = false) →
      processEndOfDay y p es = p) := by
  unfold processEndOfDay
  simp only [hE]
  constructor
  · rintro ⟨h1, h2⟩
    simp only [if_pos h1, h2, if_true]
    by_cases hL : p.currentLevel > 1
    · simp [hL]
    · simp [hL]
  · rintro (h0 | hnone)
    · rw [if_neg]
      omega
    · by_cases h1 : p.currentLevelStreak > 0
      · have hn : ¬ ((es.any fun q => decide (q.1 < y)) = true) := by
          rw [hnone]
          exact Bool.false_ne_true
        rw [if_pos h1, if_neg hn]
      · simp [h1]

/-- Witness for C5: both branches exercised — a streak-5 profile with a
prior entry dated before the missing yesterday is regressed, and the same
profile with an empty entry map is left unchanged. -/
theorem processEndOfDay_no_yesterday_entry_witness :
    (lookupEntry missedEntries "2024-01-03" = none ∧
      ((testProfile.currentLevelStreak > 0 ∧
        missedEntries.any (fun q => decide (q.1 < "2024-01-03")) = true) →
        (processEndOfDay "2024-01-03" testProfile missedEntries).currentLevelStreak = 0 ∧
        (processEndOfDay "2024-01-03" testProfile missedEntries).currentLevel =
          (if testProfile.currentLevel > 1 then testProfile.currentLevel - 1
           else testProfile.currentLevel))) ∧
    (lookupEntry [] "2024-01-03" = none ∧
      ((testProfile.currentLevelStreak = 0 ∨
        ([] : Entries).any (fun q => decide (q.1 < "2024-01-03")) = false) →
        processEndOfDay "2024-01-03" testProfile [] = testProfile)) :=
  ⟨⟨by decide,
    (processEndOfDay_no_yesterday_entry "2024-01-03" testProfile missedEntries
      (by decide)).1⟩,
   ⟨by decide,
    (processEndOfDay_no_yesterday_entry "2024-01-03" testProfile []
      (by decide)).2⟩⟩

/-- C10: `processEndOfDay` changes at most `currentLevel` and
`currentLevelStreak`: every other profile field — `name`, `createdAt`,
`longestStreak`, `totalTasksCompleted`, and the whole reminder
configuration (`reminderEnabled`, `reminderTime`, `reminderPickTask`,
`reminderFocusNudge`, `reminderWrapUp`) as well as `onboardingComplete` —
is returned unchanged.  The entries map is passed by value in this pure
embedding and the source never writes to it, so it is not modified. -/
theorem processEndOfDay_frame (y : String) (p : UserProfile) (es : Entries) :
    (processEndOfDay y p es).name = p.name ∧
    (processEndOfDay y p es).createdAt = p.createdAt ∧
    (processEndOfDay y p es).longestStreak = p.longestStreak ∧
    (processEndOfDay y p es).totalTasksCompleted = p.totalTasksCompleted ∧
    (processEndOfDay y p es).reminderEnabled = p.reminderEnabled ∧
    (processEndOfDay y p es).reminderTime = p.reminderTime ∧
    (processEndOfDay y p es).onboardingComplete = p.onboardingComplete ∧
    (processEndOfDay y p es).reminderPickTask = p.reminderPickTask ∧
    (processEndOfDay y p es).reminderFocusNudge = p.reminderFocusNudge ∧
    (processEndOfDay y p es).reminderWrapUp = p.reminderWrapUp := by
  unfold processEndOfDay
  cases hE : lookupEntry es y with
  | none =>
    simp only [hE]
    split_ifs <;> simp
  | some e =>
    simp only [hE]
    split_ifs <;> simp

/-- C3 counterexample: `processEndOfDay` is NOT idempotent within a day.
At level 3 with yesterday's entry present, carrying a task and not
completed, the first call regresses to level 2 and the second call — same
day, same entries, first call's output as input — regresses again to
level 1, because the missed-yesterday branch tests only the entry, not the
profile, and the entry is unchanged by the first call. -/
theorem processEndOfDay_not_idempotent_at_level3 :
    processEndOfDay "2024-01-02"
        (processEndOfDay "2024-01-02"
          { testProfile with currentLevel := 3 } missedEntries)
        missedEntries ≠
      processEndOfDay "2024-01-02"
        { testProfile with currentLevel := 3 } missedEntries := by
  decide

/-- C3 amended: `processEndOfDay` is idempotent within a calendar day
(the same derived yesterday string and the same entries) for every profile
whose `currentLevel` is at most 2 — in particular for levels 1 and 2 no
second streak reset or level decrement is observable.  At level 3 with an
incomplete yesterday entry the code applies a second decrement (see the
counterexample), so the hypothesis `currentLevel ≤ 2` is exactly what the
code forces. -/
theorem processEndOfDay_idempotent_below_level3
    (y : String) (p : UserProfile) (es : Entries)
    (hL : p.currentLevel ≤ 2) :
    processEndOfDay y (processEndOfDay y p es) es =
      processEndOfDay y p es := by
  unfold processEndOfDay
  cases hE : lookupEntry es y with
  | some e =>
    simp only [hE]
    by_cases hc : (decide (e.tasks.length > 0) && !e.completed) = true
    · simp only [if_pos hc]
      split_ifs <;> first | rfl | (exfalso; simp_all; try omega)
    · simp only [if_neg hc]
  | none =>
    simp only [hE]
    split_ifs <;> first | rfl | (exfalso; simp_all; try omega)

/-- Witness for C3's amended theorem at level 2 with the missed-yesterday
entries: one regression to level 1, then a fixed point. -/
theorem processEndOfDay_idempotent_below_level3_witness :
    testProfile.currentLevel ≤ 2 ∧
    processEndOfDay "2024-01-02"
        (processEndOfDay "2024-01-02" testProfile missedEntries)
        missedEntries =
      processEndOfDay "2024-01-02" testProfile missedEntries :=
  ⟨by decide,
    processEndOfDay_idempotent_below_level3 "2024-01-02" testProfile
      missedEntries (by decide)⟩

/-- Case analysis of the level after `processEndOfDay`: unchanged, or
decremented by one under the guard `currentLevel > 1`. -/
theorem processEndOfDay_level_cases (y : String) (p : UserProfile)
    (es : Entries) :
    (processEndOfDay y p es).currentLevel = p.currentLevel ∨
    (p.currentLevel > 1 ∧
      (processEndOfDay y p es).currentLevel = p.currentLevel - 1) := by
  unfold processEndOfDay
  cases hE : lookupEntry es y <;> simp only [hE] <;>
    split_ifs <;> simp_all

/-- Case analysis of the level after `completeTask`: unchanged, or
incremented by one under the guard `currentLevel < 3` (where
`Math.min(level + 1, 3)` is `level + 1`). -/
theorem completeTask_level_cases (p : UserProfile) (e : DailyEntry)
    (tid now : String) (pr : Option TaskProof) :
    (completeTask p e tid now pr).profile.currentLevel = p.currentLevel ∨
    (p.currentLevel < 3 ∧
      (completeTask p e tid now pr).profile.currentLevel = p.currentLevel + 1) := by
  simp only [completeTask]
  by_cases h1 : ((e.tasks.map (fun t =>
      if t.id = tid then
        { t with isCompleted := true, completedAt := some now, proof := pr }
      else t)).all (fun t => t.isCompleted) &&
        decide ((e.tasks.map (fun t =>
          if t.id = tid then
            { t with isCompleted := true, completedAt := some now, proof := pr }
          else t)).length > 0)) = true
  · rw [if_pos h1]
    by_cases h2 : (decide (p.currentLevelStreak + 1 ≥ 7) &&
        decide (p.currentLevel < 3)) = true
    · rw [if_pos h2]
      simp only [Bool.and_eq_true, decide_eq_true_eq] at h2
      right
      refine ⟨h2.2, ?_⟩
      show min (p.currentLevel + 1) 3 = p.currentLevel + 1
      omega
    · rw [if_neg h2]
      left
      rfl
  · rw [if_neg h1]
    left
    rfl

/-- C4: both state transitions — the end-of-day evaluation and the
completion-path level-up — keep `currentLevel` inside `{1, 2, 3}` and move
it by at most one per invocation: never below 1, never above 3, never a
jump of 2 or more (`p.currentLevel - 1 ≤ result ≤ p.currentLevel + 1` in
truncated Nat arithmetic). -/
theorem transitions_keep_level_in_range
    (y : String) (p : UserProfile) (es : Entries) (e : DailyEntry)
    (tid now : String) (pr : Option TaskProof)
    (hlo : 1 ≤ p.currentLevel) (hhi : p.currentLevel ≤ 3) :
    (1 ≤ (processEndOfDay y p es).currentLevel ∧
     (processEndOfDay y p es).currentLevel ≤ 3 ∧
     p.currentLevel - 1 ≤ (processEndOfDay y p es).currentLevel ∧
     (processEndOfDay y p es).currentLevel ≤ p.currentLevel + 1) ∧
    (1 ≤ (completeTask p e tid now pr).profile.currentLevel ∧
     (completeTask p e tid now pr).profile.currentLevel ≤ 3 ∧
     p.currentLevel - 1 ≤ (completeTask p e tid now pr).profile.currentLevel ∧
     (completeTask p e tid now pr).profile.currentLevel ≤ p.currentLevel + 1) := by
  rcases processEndOfDay_level_cases y p es with h1 | ⟨hg1, h1⟩ <;>
    rcases completeTask_level_cases p e tid now pr with h2 | ⟨hg2, h2⟩ <;>
    omega

/-- Witness for C4 at the test fixture (level 2) with the missed-yesterday
entries and a concrete task completion. -/
theorem transitions_keep_level_in_range_witness :
    (1 ≤ testProfile.currentLevel ∧ testProfile.currentLevel ≤ 3) ∧
    ((1 ≤ (processEndOfDay "2024-01-02" testProfile missedEntries).currentLevel ∧
      (processEndOfDay "2024-01-02" testProfile missedEntries).currentLevel ≤ 3 ∧
      testProfile.currentLevel - 1 ≤
        (processEndOfDay "2024-01-02" testProfile missedEntries).currentLevel ∧
      (processEndOfDay "2024-01-02" testProfile missedEntries).currentLevel ≤
        testProfile.currentLevel + 1) ∧
     (1 ≤ (completeTask testProfile missedEntry "1" "" none).profile.currentLevel ∧
      (completeTask testProfile missedEntry "1" "" none).profile.currentLevel ≤ 3 ∧
      testProfile.currentLevel - 1 ≤
        (completeTask testProfile missedEntry "1" "" none).profile.currentLevel ∧
      (completeTask testProfile missedEntry "1" "" none).profile.currentLevel ≤
        testProfile.currentLevel + 1)) :=
  ⟨⟨by decide, by decide⟩,
    transitions_keep_level_in_range "2024-01-02" testProfile missedEntries
      missedEntry "1" "" none (by decide) (by decide)⟩

/-- C2: when completing the task `tid` leaves every task of a non-empty
task list completed, and the incremented streak reaches 7 while
`currentLevel < 3`, `completeTask` raises the level by exactly one, resets
the streak to 0, and marks the entry completed. -/
theorem completeTask_levelUp_at_seven
    (p : UserProfile) (e : DailyEntry) (tid now : String)
    (pr : Option TaskProof)
    (hne : e.tasks ≠ [])
    (hothers : ∀ t ∈ e.tasks, t.id = tid ∨ t.isCompleted = true)
    (hstreak : 7 ≤ p.currentLevelStreak + 1)
    (hlevel : p.currentLevel < 3) :
    (completeTask p e tid now pr).profile.currentLevel = p.currentLevel + 1 ∧
    (completeTask p e tid now pr).profile.currentLevelStreak = 0 ∧
    (completeTask p e tid now pr).entry.completed = true := by
  have hall : (e.tasks.map (fun t =>
      if t.id = tid then
        { t with isCompleted := true, completedAt := some now, proof := pr }
      else t)).all (fun t => t.isCompleted) = true := by
    rw [List.all_eq_true]
    intro t' ht'
    rcases List.mem_map.mp ht' with ⟨t, ht, rfl⟩
    rcases hothers t ht with h | h
    · simp [h]
    · by_cases hid : t.id = tid
      · simp [hid]
      · simp [hid, h]
  have hlen : 0 < e.tasks.length := List.length_pos.mpr hne
  simp only [completeTask]
  have hcond : ((e.tasks.map (fun t =>
      if t.id = tid then
        { t with isCompleted := true, completedAt := some now, proof := pr }
      else t)).all (fun t => t.isCompleted) &&
        decide ((e.tasks.map (fun t =>
          if t.id = tid then
            { t with isCompleted := true, completedAt := some now, proof := pr }
          else t)).length > 0)) = true := by
    rw [hall]
    simp [List.length_map, hlen]
  rw [if_pos hcond]
  rw [if_pos]
  · refine ⟨?_, rfl, ?_⟩
    · show min (p.currentLevel + 1) 3 = p.currentLevel + 1
      omega
    · exact hall
  · simp only [Bool.and_eq_true, decide_eq_true_eq]
    exact ⟨hstreak, hlevel⟩

/-- Witness for C2: the spec's own scenario — level 1, streak 6, one
incomplete task; completing it yields level 2, streak 0, entry completed. -/
theorem completeTask_levelUp_at_seven_witness :
    (completeTask { testProfile with currentLevel := 1, currentLevelStreak := 6 }
        missedEntry "1" "2024-01-03T10:00:00.000Z" none).profile.currentLevel = 2 ∧
    (completeTask { testProfile with currentLevel := 1, currentLevelStreak := 6 }
        missedEntry "1" "2024-01-03T10:00:00.000Z" none).profile.currentLevelStreak = 0 ∧
    (completeTask { testProfile with currentLevel := 1, currentLevelStreak := 6 }
        missedEntry "1" "2024-01-03T10:00:00.000Z" none).entry.completed = true :=
  completeTask_levelUp_at_seven
    { testProfile with currentLevel := 1, currentLevelStreak := 6 }
    missedEntry "1" "2024-01-03T10:00:00.000Z" none
    (by decide) (by decide) (by decide) (by decide)

/-- C9 counterexample: `completed` is NOT "true iff at least one task and
every task completed".  On an entry with an empty task list,
`updatedTasks.every(...)` is vacuously true, so `completeTask` marks the
entry `completed = true` even though it has zero tasks — the claimed
right-hand side is false while the flag is true. -/
theorem completeTask_completed_iff_cex :
    ¬ (((completeTask testProfile emptyTodayEntry "1" "" none).entry.completed = true) ↔
       ((completeTask testProfile emptyTodayEntry "1" "" none).entry.tasks.length > 0 ∧
        ∀ t ∈ (completeTask testProfile emptyTodayEntry "1" "" none).entry.tasks,
          t.isCompleted = true)) := by
  decide

/-- C9 amended: for every today entry with at least one task, after
`completeTask` the entry's `completed` flag is true iff the entry (still
non-empty) has every task `isCompleted`.  The restriction to non-empty
task lists is exactly what the counterexample forces: an empty entry is
(vacuously) marked completed by the code. -/
theorem completeTask_completed_iff
    (p : UserProfile) (e : DailyEntry) (tid now : String)
    (pr : Option TaskProof) (hne : e.tasks ≠ []) :
    ((completeTask p e tid now pr).entry.completed = true ↔
     ((completeTask p e tid now pr).entry.tasks.length > 0 ∧
      ∀ t ∈ (completeTask p e tid now pr).entry.tasks, t.isCompleted = true)) := by
  have hlen : 0 < e.tasks.length := List.length_pos.mpr hne
  simp only [completeTask, List.all_eq_true, List.length_map]
  constructor
  · intro h
    exact ⟨hlen, h⟩
  · intro h
    exact h.2

/-- Witness for C9's amended theorem at a one-task entry. -/
theorem completeTask_completed_iff_witness :
    missedEntry.tasks ≠ [] ∧
    ((completeTask testProfile missedEntry "1" "" none).entry.completed = true ↔
     ((completeTask testProfile missedEntry "1" "" none).entry.tasks.length > 0 ∧
      ∀ t ∈ (completeTask testProfile missedEntry "1" "" none).entry.tasks,
        t.isCompleted = true)) :=
  ⟨by decide, completeTask_completed_iff testProfile missedEntry "1" "" none (by decide)⟩

/-- No task's focus-nudge identifier collides with the wrap-up identifier:
the former always starts with the "focus-nudge-" prefix string. -/
theorem focusNudgeId_ne_wrapUpId (x : String) : focusNudgeId x ≠ WRAP_UP_ID := by
  cases x with
  | mk d =>
    intro h
    have hd : "focus-nudge-".data ++ d = "wrap-up-reminder".data :=
      congrArg String.data h
    have h1 : "focus-nudge-".data =
        ['f', 'o', 'c', 'u', 's', '-', 'n', 'u', 'd', 'g', 'e', '-'] := rfl
    have h2 : "wrap-up-reminder".data =
        ['w', 'r', 'a', 'p', '-', 'u', 'p', '-', 'r', 'e', 'm', 'i', 'n', 'd', 'e', 'r'] := rfl
    rw [h1, h2] at hd
    simp at hd

theorem schedulesId_cons_cancel (i : String) (ops : List NotifOp) (id : String) :
    schedulesId (NotifOp.cancel i :: ops) id = schedulesId ops id := by
  simp [schedulesId]

theorem schedulesId_map_cancel {α : Type} (l : List α) (f : α → String)
    (id : String) :
    schedulesId (l.map (fun x => NotifOp.cancel (f x))) id = false := by
  induction l with
  | nil => rfl
  | cons x xs ih => simp [schedulesId, ih]

theorem scheduleFocusNudgeOps_no_other_id (granted : Bool) (nowSec : Nat)
    (tid time : String) (id : String) (hne : focusNudgeId tid ≠ id) :
    schedulesId (scheduleFocusNudgeOps granted nowSec tid time) id = false := by
  unfold scheduleFocusNudgeOps
  by_cases hg : granted
  · simp only [hg, Bool.not_true, Bool.false_eq_true, if_false]
    rw [schedulesId_cons_cancel]
    by_cases h : hourGE21 (timeParts time).1 = true
    · simp [h, schedulesId]
    · simp only [Bool.not_eq_true] at h
      simp only [h, Bool.false_eq_true, if_false]
      rcases (timeParts time).1 with _ | hr
      · simp [schedulesId, hne]
      · rcases (timeParts time).2 with _ | mn
        · simp [schedulesId, hne]
        · by_cases h3 : hr * 3600 + mn * 60 ≤ nowSec
          · simp [h3, schedulesId]
          · simp [h3, schedulesId, hne]
  · simp only [Bool.not_eq_true] at hg
    simp [hg, schedulesId]

theorem focusSectionOps_no_wrap_schedule (granted : Bool) (nowSec : Nat)
    (focusEnabled : Bool) (tasks : List TaskItem) :
    schedulesId (focusSectionOps granted nowSec focusEnabled tasks) WRAP_UP_ID = false := by
  unfold focusSectionOps
  by_cases hf : focusEnabled
  · simp only [hf, if_true]
    induction tasks with
    | nil => rfl
    | cons t ts ih =>
      rw [List.flatMap_cons, schedulesId_append, ih, Bool.or_false]
      by_cases hc : t.isCompleted
      · simp [hc, schedulesId]
      · simp only [hc, Bool.false_eq_true, if_false]
        by_cases hs : truthyOptStr t.scheduledTime = true
        · simp only [hs, if_true]
          exact scheduleFocusNudgeOps_no_other_id granted nowSec t.id
            (t.scheduledTime.getD "") WRAP_UP_ID (focusNudgeId_ne_wrapUpId t.id)
        · simp only [Bool.not_eq_true] at hs
          simp [hs, schedulesId]
  · simp only [Bool.not_eq_true] at hf
    simp only [hf, Bool.false_eq_true, if_false]
    exact schedulesId_map_cancel ..

theorem cancelsId_append (a b : List NotifOp) (id : String) :
    cancelsId (a ++ b) id = (cancelsId a id || cancelsId b id) :=
  List.any_append ..

/-- Evaluation of the wrap-up section when the toggle is on and some task
is incomplete: a wrap-up schedule is issued exactly when the anti-spam
check does not skip it and its hour is before 21. -/
theorem wrapSectionOps_schedulesId (time : String) (tasks : List TaskItem)
    (hinc : (tasks.filter (fun t => !t.isCompleted)).length > 0) :
    schedulesId (wrapSectionOps true time tasks) WRAP_UP_ID =
      (!shouldSkipWrapUp time (tasks.filter (fun t => !t.isCompleted)) &&
       !hourGE21 (timeParts time).1) := by
  unfold wrapSectionOps
  have hcond : (true &&
      decide ((tasks.filter (fun t => !t.isCompleted)).length > 0)) = true := by
    simp [hinc]
  rw [if_pos hcond]
  by_cases hskip : shouldSkipWrapUp time (tasks.filter (fun t => !t.isCompleted)) = true
  · simp [hskip, schedulesId]
  · simp only [Bool.not_eq_true] at hskip
    simp only [hskip, Bool.not_false, if_true]
    unfold scheduleWrapUpReminderOps
    rw [schedulesId_cons_cancel]
    by_cases h21 : hourGE21 (timeParts time).1 = true
    · simp [h21, schedulesId]
    · simp only [Bool.not_eq_true] at h21
      simp [h21, schedulesId]

/-- When the anti-spam rule fires, the wrap-up section is exactly one
cancel of the wrap-up identifier. -/
theorem wrapSectionOps_cancel_when_skip (time : String) (tasks : List TaskItem)
    (hinc : (tasks.filter (fun t => !t.isCompleted)).length > 0)
    (hskip : shouldSkipWrapUp time (tasks.filter (fun t => !t.isCompleted)) = true) :
    wrapSectionOps true time tasks = [NotifOp.cancel WRAP_UP_ID] := by
  unfold wrapSectionOps
  have hcond : (true &&
      decide ((tasks.filter (fun t => !t.isCompleted)).length > 0)) = true := by
    simp [hinc]
  rw [if_pos hcond, hskip]
  simp

/-- In-progress branch of `syncNotifications` (permission granted, entry
present with tasks, not completed): cancel pick-task, then the focus
section, then the wrap-up section. -/
theorem syncNotifications_inProgress (p : UserProfile) (e : DailyEntry)
    (nowSec : Nat) (hne : e.tasks.length ≠ 0) (hnc : e.completed = false) :
    syncNotifications p (some e) true nowSec =
      NotifOp.cancel PICK_TASK_ID ::
        (focusSectionOps true nowSec p.reminderFocusNudge.enabled e.tasks ++
         wrapSectionOps p.reminderWrapUp.enabled p.reminderWrapUp.time e.tasks) := by
  unfold syncNotifications
  simp [hne, hnc]

/-- C7 counterexample: the anti-spam rule does NOT consult every incomplete
task — the code checks only the first incomplete task that has a
`scheduledTime` (`incompleteTasks.find(t => t.scheduledTime)`).  With the
wrap-up at 19:00 and two incomplete tasks scheduled at 16:00 and 18:30,
the second is inside the 60-minute window, so the claim says the wrap-up
must be suppressed; the code inspects only the 16:00 task and schedules
the wrap-up anyway. -/
theorem syncNotifications_wrapUp_antispam_cex :
    ¬ ((schedulesId (syncNotifications wrapUpProfile (some twoTaskEntry) true 0)
          WRAP_UP_ID = true) ↔
       (∀ t ∈ twoTaskEntry.tasks.filter (fun t => !t.isCompleted),
          ∀ s : String, t.scheduledTime = some s →
            isWithinOneHour s wrapUpProfile.reminderWrapUp.time = false)) := by
  decide

/-- C7 amended: with wrap-up enabled, a non-completed entry with tasks and
at least one incomplete task, `syncNotifications` (permission granted)
issues a wrap-up schedule iff the anti-spam check against the FIRST
incomplete task having a `scheduledTime` does not fire AND the wrap-up
hour is before 21; when the anti-spam check fires, the wrap-up reminder is
canceled instead. -/
theorem syncNotifications_wrapUp_antispam
    (p : UserProfile) (e : DailyEntry) (nowSec : Nat)
    (hwrap : p.reminderWrapUp.enabled = true)
    (hne : e.tasks.length ≠ 0)
    (hnc : e.completed = false)
    (hinc : (e.tasks.filter (fun t => !t.isCompleted)).length > 0) :
    (schedulesId (syncNotifications p (some e) true nowSec) WRAP_UP_ID = true ↔
      (shouldSkipWrapUp p.reminderWrapUp.time
          (e.tasks.filter (fun t => !t.isCompleted)) = false ∧
       hourGE21 (timeParts p.reminderWrapUp.time).1 = false)) ∧
    (shouldSkipWrapUp p.reminderWrapUp.time
        (e.tasks.filter (fun t => !t.isCompleted)) = true →
      cancelsId (syncNotifications p (some e) true nowSec) WRAP_UP_ID = true) := by
  rw [syncNotifications_inProgress p e nowSec hne hnc]
  constructor
  · rw [schedulesId_cons_cancel, schedulesId_append,
      focusSectionOps_no_wrap_schedule, Bool.false_or, hwrap,
      wrapSectionOps_schedulesId _ _ hinc]
    simp [Bool.and_eq_true, Bool.not_eq_true']
  · intro hskip
    rw [hwrap, wrapSectionOps_cancel_when_skip _ _ hinc hskip]
    rw [show NotifOp.cancel PICK_TASK_ID ::
        (focusSectionOps true nowSec p.reminderFocusNudge.enabled e.tasks ++
          [NotifOp.cancel WRAP_UP_ID]) =
        [NotifOp.cancel PICK_TASK_ID] ++
        (focusSectionOps true nowSec p.reminderFocusNudge.enabled e.tasks ++
          [NotifOp.cancel WRAP_UP_ID]) from rfl]
    rw [cancelsId_append, cancelsId_append]
    have hlast : cancelsId [NotifOp.cancel WRAP_UP_ID] WRAP_UP_ID = true := by
      decide
    rw [hlast, Bool.or_true, Bool.or_true]

/-- Witness for C7's amended theorem: the spec's own example — wrap-up at
19:00, a single incomplete task at 16:00 (3 hours apart): the anti-spam
check does not fire and the theorem applies. -/
theorem syncNotifications_wrapUp_antispam_witness :
    wrapUpProfile.reminderWrapUp.enabled = true ∧
    earlyTaskEntry.tasks.length ≠ 0 ∧
    earlyTaskEntry.completed = false ∧
    (earlyTaskEntry.tasks.filter (fun t => !t.isCompleted)).length > 0 ∧
    ((schedulesId (syncNotifications wrapUpProfile (some earlyTaskEntry) true 0)
        WRAP_UP_ID = true ↔
      (shouldSkipWrapUp wrapUpProfile.reminderWrapUp.time
          (earlyTaskEntry.tasks.filter (fun t => !t.isCompleted)) = false ∧
       hourGE21 (timeParts wrapUpProfile.reminderWrapUp.time).1 = false)) ∧
     (shouldSkipWrapUp wrapUpProfile.reminderWrapUp.time
        (earlyTaskEntry.tasks.filter (fun t => !t.isCompleted)) = true →
      cancelsId (syncNotifications wrapUpProfile (some earlyTaskEntry) true 0)
        WRAP_UP_ID = true)) :=
  ⟨by decide, by decide, by decide, by decide,
    syncNotifications_wrapUp_antispam wrapUpProfile earlyTaskEntry 0
      (by decide) (by decide) (by decide) (by decide)⟩

/-- C6: for every time string whose parsed hour is at least 21, none of
the three scheduling functions issues a `schedule` call — the pick-task
and wrap-up reminders and every focus nudge (any permission state, any
current time, any task) produce zero scheduled notifications. -/
theorem no_reminder_scheduled_at_or_after_21
    (time : String) (h : Nat)
    (hh : (timeParts time).1 = some h) (h21 : 21 ≤ h) :
    schedulesAny (schedulePickTaskReminderOps time) = false ∧
    schedulesAny (scheduleWrapUpReminderOps time) = false ∧
    ∀ (granted : Bool) (nowSec : Nat) (taskId : String),
      schedulesAny (scheduleFocusNudgeOps granted nowSec taskId time) = false := by
  have hg : hourGE21 (timeParts time).1 = true := by
    rw [hh]
    simp [hourGE21, h21]
  refine ⟨?_, ?_, ?_⟩
  · unfold schedulePickTaskReminderOps
    simp [hg, schedulesAny]
  · unfold scheduleWrapUpReminderOps
    simp [hg, schedulesAny]
  · intro granted nowSec taskId
    unfold scheduleFocusNudgeOps
    cases granted
    · simp [schedulesAny]
    · simp [hg, schedulesAny]

/-- Witness for C6 at "21:00": parsed hour 21, no schedule issued by any
of the three functions. -/
theorem no_reminder_scheduled_at_or_after_21_witness :
    (timeParts "21:00").1 = some 21 ∧ 21 ≤ 21 ∧
    schedulesAny (schedulePickTaskReminderOps "21:00") = false ∧
    schedulesAny (scheduleWrapUpReminderOps "21:00") = false ∧
    schedulesAny (scheduleFocusNudgeOps true 600 "task-1" "21:00") = false :=
  ⟨by decide, by decide,
   (no_reminder_scheduled_at_or_after_21 "21:00" 21 (by decide) (by decide)).1,
   (no_reminder_scheduled_at_or_after_21 "21:00" 21 (by decide) (by decide)).2.1,
   (no_reminder_scheduled_at_or_after_21 "21:00" 21 (by decide) (by decide)).2.2
     true 600 "task-1"⟩

/-- C8: cancel-before-create holds for every slot, so iterating
`syncNotifications` over the live-notification state never leaves two
notifications under one identifier: after any number `N` of runs the count
of any identifier never exceeds `max` of its initial count and 1, every
identifier the trace schedules ends with at most one live notification
(for `N ≥ 1`), and in the no-tasks-yet state with pick-task enabled before
21:00 (permission granted) exactly one pick-task notification is live. -/
theorem syncNotifications_at_most_one_per_slot
    (p : UserProfile) (o : Option DailyEntry) (granted : Bool) (nowSec : Nat)
    (s : String → Nat) (N : Nat) (id : String) :
    ((applyOps (syncNotifications p o granted nowSec))^[N] s) id ≤ max (s id) 1 ∧
    (1 ≤ N → schedulesId (syncNotifications p o granted nowSec) id = true →
      ((applyOps (syncNotifications p o granted nowSec))^[N] s) id ≤ 1) ∧
    (1 ≤ N → granted = true → noTasksYetState o = true →
      p.reminderPickTask.enabled = true →
      hourGE21 (timeParts p.reminderPickTask.time).1 = false →
      ((applyOps (syncNotifications p o granted nowSec))^[N] s) PICK_TASK_ID = 1) := by
  obtain ⟨hsched, hru⟩ := opsOK_syncNotifications p o granted nowSec id
  refine ⟨?_, ?_, ?_⟩
  · rw [applyOps_iterate]
    rcases hru with hr | hu
    · cases N with
      | zero => exact le_max_left _ _
      | succ k =>
        exact le_trans
          (iterate_le_one_of_le_one hr (s id) (k + 1) (Nat.succ_le_succ (Nat.zero_le k)))
          (le_max_right _ _)
    · rw [iterate_eq_self_of_id hu]
      exact le_max_left _ _
  · intro hN hs
    rw [applyOps_iterate]
    exact iterate_le_one_of_le_one (hsched hs) (s id) N hN
  · intro hN hg hno hpick hhour
    subst hg
    have hops : syncNotifications p o true nowSec =
        [NotifOp.cancel PICK_TASK_ID,
         NotifOp.schedule PICK_TASK_ID
           (Trigger.daily (timeParts p.reminderPickTask.time).1
             (timeParts p.reminderPickTask.time).2),
         NotifOp.cancel WRAP_UP_ID] := by
      unfold syncNotifications
      cases o with
      | none =>
        simp [hpick, schedulePickTaskReminderOps, hhour]
      | some e =>
        have he : e.tasks.length = 0 := by
          simpa [noTasksYetState] using hno
        simp [he, hpick, schedulePickTaskReminderOps, hhour]
    rw [applyOps_iterate, hops]
    refine iterate_const_one ?_ (s PICK_TASK_ID) N hN
    intro n
    rfl

/-- Witness for C8: pick-task enabled at 08:00, no entry yet, permission
granted; three consecutive reconciliations leave exactly one live
pick-task notification starting from an empty service state. -/
theorem syncNotifications_at_most_one_per_slot_witness :
    ((applyOps (syncNotifications pickEnabledProfile none true 0))^[3]
        (fun _ => 0)) PICK_TASK_ID = 1 :=
  (syncNotifications_at_most_one_per_slot pickEnabledProfile none true 0
      (fun _ => 0) 3 PICK_TASK_ID).2.2 (by decide) rfl (by decide) (by decide)
    (by decide)
